import Mathlib

/-!
Shallow embedding of the Snake game's simulation core (src/src/main.rs).

Positions are `Vec3` over `Int`: every position the program produces is an
integer multiple of `OBJECT_SIZE` (possibly shifted by the wrap amount), so
the `f32` arithmetic of the source is exact and is modelled by integer
arithmetic.  Randomness is modelled by passing the sampled values of
`rng.random_range` as explicit parameters.  The Bevy ECS world is modelled
by the `World` structure holding the head transform and heading, the head
sprite image path, the ordered list of body-segment positions (query
iteration order), and the orb transform.
-/

namespace Snake

/-- `OBJECT_SIZE` from main.rs (32.0, exact). -/
def OBJECT_SIZE : Int := 32

/-- `WINDOW_WIDTH = 16.0 * OBJECT_SIZE` from main.rs. -/
def WINDOW_WIDTH : Int := 16 * OBJECT_SIZE

/-- `WINDOW_HEIGHT = 16.0 * OBJECT_SIZE` from main.rs. -/
def WINDOW_HEIGHT : Int := 16 * OBJECT_SIZE

/-- `SNAKE_SPEED = OBJECT_SIZE * 1.` from main.rs. -/
def SNAKE_SPEED : Int := OBJECT_SIZE * 1

/-- The `Direction` enum; `Up` is the `#[default]` variant. -/
inductive Direction : Type
  | Up
  | Down
  | Left
  | Right
deriving DecidableEq, Repr, Fintype

/-- `bevy::math::Vec3` restricted to the integer grid the program stays on. -/
structure Vec3 : Type where
  x : Int
  y : Int
  z : Int
deriving DecidableEq, Repr

/-- The subset of `bevy::input::keyboard::KeyCode` the program maps, plus a
catch-all `Other` for every unmapped key. -/
inductive KeyCode : Type
  | ArrowUp
  | ArrowDown
  | ArrowLeft
  | ArrowRight
  | KeyW
  | KeyA
  | KeyS
  | KeyD
  | Other
deriving DecidableEq, Repr, Fintype

/-- `impl TryFrom<&KeyCode> for Direction` from main.rs; `Err(())` is `none`. -/
def Direction.try_from : KeyCode → Option Direction
  | KeyCode.ArrowUp => some Direction.Up
  | KeyCode.KeyW => some Direction.Up
  | KeyCode.ArrowDown => some Direction.Down
  | KeyCode.KeyS => some Direction.Down
  | KeyCode.ArrowLeft => some Direction.Left
  | KeyCode.KeyA => some Direction.Left
  | KeyCode.ArrowRight => some Direction.Right
  | KeyCode.KeyD => some Direction.Right
  | KeyCode.Other => none

/-- `Direction::is_opposite` from main.rs: the `matches!` over the four
Up/Down and Left/Right pairs. -/
def Direction.is_opposite : Direction → Direction → Bool
  | Direction.Up, Direction.Down => true
  | Direction.Down, Direction.Up => true
  | Direction.Left, Direction.Right => true
  | Direction.Right, Direction.Left => true
  | _, _ => false

/-- The `SnakeHead` component: its current heading. -/
structure SnakeHead : Type where
  direction : Direction
deriving DecidableEq, Repr

/-- `SnakeHead::turn_unchecked` from main.rs. -/
def SnakeHead.turn_unchecked (h : SnakeHead) (new_direction : Direction) : SnakeHead :=
  { h with direction := new_direction }

/-- `SnakeHead::turn` from main.rs: apply `turn_unchecked` unless the request
is the exact opposite of the current heading. -/
def SnakeHead.turn (h : SnakeHead) (new_direction : Direction) : SnakeHead :=
  if h.direction.is_opposite new_direction then h else h.turn_unchecked new_direction

/-- `Moveable::step` for `(Mut<Transform>, Mut<SnakeHead>)` from main.rs:
move one `SNAKE_SPEED` in the heading's direction, then wrap the moved axis
by a full window extent when it passes strictly beyond the half-extent. -/
def step (t : Vec3) (d : Direction) : Vec3 :=
  match d with
  | Direction.Up =>
      let y := t.y + SNAKE_SPEED
      { t with y := if y > WINDOW_HEIGHT / 2 then y - WINDOW_HEIGHT else y }
  | Direction.Down =>
      let y := t.y - SNAKE_SPEED
      { t with y := if y < -(WINDOW_HEIGHT / 2) then y + WINDOW_HEIGHT else y }
  | Direction.Left =>
      let x := t.x - SNAKE_SPEED
      { t with x := if x < -(WINDOW_WIDTH / 2) then x + WINDOW_WIDTH else x }
  | Direction.Right =>
      let x := t.x + SNAKE_SPEED
      { t with x := if x > WINDOW_WIDTH / 2 then x - WINDOW_WIDTH else x }

/-- The ECS state the simulation systems touch: head transform translation,
`SnakeHead` component, head `Sprite` image path, body-segment translations in
query iteration order, and the orb transform translation. -/
structure World : Type where
  head_translation : Vec3
  head : SnakeHead
  head_image : String
  body : List Vec3
  orb_translation : Vec3
deriving DecidableEq, Repr

/-- The rolling-swap pass of `move_snake`: for each body segment in stored
order, `swap(&mut body_transform.translation, &mut last_translation)`.
Returns the updated segment list and the final value of `last_translation`. -/
def propagate : List Vec3 → Vec3 → List Vec3 × Vec3
  | [], last_translation => ([], last_translation)
  | b :: rest, last_translation =>
      let p := propagate rest b
      (last_translation :: p.1, p.2)

/-- `move_snake` from main.rs: capture `last_translation`, step the head,
then run the rolling-swap pass over the body query. -/
def move_snake (w : World) : World :=
  let last_translation := w.head_translation
  let stepped := { w with head_translation := step w.head_translation w.head.direction }
  { stepped with body := (propagate stepped.body last_translation).1 }

/-- The final value of `last_translation` after `move_snake`'s swap pass
(the tail's pre-move position; a local dropped by the source). -/
def move_snake_trail (w : World) : Vec3 :=
  (propagate w.body w.head_translation).2

/-- `get_random_position` from main.rs, with the two `rng.random_range(0..16)`
draws passed as parameters `i` and `j` (each in `0 ≤ _ < extent/OBJECT_SIZE`). -/
def get_random_position (i j : Int) : Vec3 :=
  ⟨(i - WINDOW_WIDTH / OBJECT_SIZE / 2) * OBJECT_SIZE,
   (j - WINDOW_HEIGHT / OBJECT_SIZE / 2) * OBJECT_SIZE,
   0⟩

/-- `check_collisions` from main.rs, with the freshly drawn orb position
passed as `orb_position`.  The crash scan sets `crashed` iff some body
segment's translation equals the head's; a crash despawns every body segment
and swaps the head sprite; an orb hit relocates the orb and spawns one body
segment at the head's current translation.  Deferred `Commands` (despawns,
then the spawn) apply in issue order, hence the sequential model. -/
def check_collisions (orb_position : Vec3) (w : World) : World :=
  let crashed := w.head_translation ∈ w.body
  let resolved :=
    if crashed then { w with body := [], head_image := "textures/head_2.png" } else w
  if resolved.orb_translation = resolved.head_translation then
    { resolved with
        orb_translation := orb_position,
        body := resolved.body ++ [resolved.head_translation] }
  else resolved

/-- `handle_input` from main.rs: fold over the pressed keys in iteration
order; mapped keys call `SnakeHead::turn`, unmapped keys are ignored. -/
def handle_input (pressed : List KeyCode) (h : SnakeHead) : SnakeHead :=
  pressed.foldl
    (fun acc key =>
      match Direction.try_from key with
      | some d => acc.turn d
      | none => acc)
    h

/-- Horizontal displacement of one unwrapped step in direction `d`. -/
def dx : Direction → Int
  | Direction.Left => -SNAKE_SPEED
  | Direction.Right => SNAKE_SPEED
  | _ => 0

/-- Vertical displacement of one unwrapped step in direction `d`. -/
def dy : Direction → Int
  | Direction.Up => SNAKE_SPEED
  | Direction.Down => -SNAKE_SPEED
  | _ => 0

/-! ## General lemmas about the movement pass -/

theorem propagate_fst (l : List Vec3) (v : Vec3) :
    (propagate l v).1 = (v :: l).dropLast := by
  induction l generalizing v with
  | nil => simp [propagate]
  | cons b rest ih => simp [propagate, ih]

theorem move_snake_body (w : World) :
    (move_snake w).body = (w.head_translation :: w.body).dropLast := by
  simp [move_snake, propagate_fst]

theorem move_snake_head (w : World) :
    (move_snake w).head_translation = step w.head_translation w.head.direction := rfl

theorem move_snake_body_length (w : World) :
    (move_snake w).body.length = w.body.length := by
  simp [move_snake_body]

/-! ## Claims -/

/-- C10: `Direction.is_opposite` is irreflexive and symmetric, and a turn
request equal to the current heading is always accepted (the heading is set
to the requested — identical — value). -/
theorem C10_opposite_irrefl_symm :
    (∀ d : Direction, d.is_opposite d = false) ∧
    (∀ a b : Direction, a.is_opposite b = b.is_opposite a) ∧
    (∀ d : Direction, (SnakeHead.mk d).turn d = SnakeHead.mk d) := by
  decide

/-- C5: submitting the exact opposite of the current heading leaves the
`SnakeHead` entirely unchanged, while submitting any non-opposite heading
(including the current one) sets the heading to the requested value. -/
theorem C5_turn (h : SnakeHead) (d : Direction) :
    (h.direction.is_opposite d = true → h.turn d = h) ∧
    (h.direction.is_opposite d = false → h.turn d = SnakeHead.mk d) := by
  obtain ⟨hd⟩ := h
  cases hd <;> cases d <;> simp [SnakeHead.turn, SnakeHead.turn_unchecked, Direction.is_opposite]

/-- C5 witness: heading Up, request Down is rejected unchanged; heading Up,
request Left is applied. -/
theorem C5_turn_witness :
    (SnakeHead.mk Direction.Up).turn Direction.Down = SnakeHead.mk Direction.Up ∧
    (SnakeHead.mk Direction.Up).turn Direction.Left = SnakeHead.mk Direction.Left :=
  ⟨(C5_turn (SnakeHead.mk Direction.Up) Direction.Down).1 (by decide),
   (C5_turn (SnakeHead.mk Direction.Up) Direction.Left).2 (by decide)⟩

/-- C9: every position `get_random_position` produces (used for both the
initial orb spawn and every relocation) has `z = 0` and each of `x`, `y` an
exact multiple of `OBJECT_SIZE` lying in `[-extent/2, extent/2 - OBJECT_SIZE]`
(that is, `[-256, 224]`); in particular neither coordinate ever equals
`+extent/2`. -/
theorem C9_orb_position (i j : Int)
    (hi0 : 0 ≤ i) (hi1 : i < WINDOW_WIDTH / OBJECT_SIZE)
    (hj0 : 0 ≤ j) (hj1 : j < WINDOW_HEIGHT / OBJECT_SIZE) :
    (get_random_position i j).z = 0 ∧
    (∃ m : Int, (get_random_position i j).x = m * OBJECT_SIZE) ∧
    (∃ m : Int, (get_random_position i j).y = m * OBJECT_SIZE) ∧
    (-(WINDOW_WIDTH / 2) ≤ (get_random_position i j).x ∧
      (get_random_position i j).x ≤ WINDOW_WIDTH / 2 - OBJECT_SIZE) ∧
    (-(WINDOW_HEIGHT / 2) ≤ (get_random_position i j).y ∧
      (get_random_position i j).y ≤ WINDOW_HEIGHT / 2 - OBJECT_SIZE) ∧
    (get_random_position i j).x ≠ WINDOW_WIDTH / 2 ∧
    (get_random_position i j).y ≠ WINDOW_HEIGHT / 2 := by
  refine ⟨rfl, ⟨i - 8, ?_⟩, ⟨j - 8, ?_⟩, ⟨?_, ?_⟩, ⟨?_, ?_⟩, ?_, ?_⟩ <;>
    simp only [get_random_position, WINDOW_WIDTH, WINDOW_HEIGHT, OBJECT_SIZE] at * <;> omega

/-- C9 witness: the draw `(i, j) = (0, 15)` satisfies the range hypotheses
and the produced position `(-256, 224, 0)` satisfies every conclusion. -/
theorem C9_orb_position_witness :
    ((0 : Int) ≤ 0 ∧ (0 : Int) < WINDOW_WIDTH / OBJECT_SIZE ∧
      (0 : Int) ≤ 15 ∧ (15 : Int) < WINDOW_HEIGHT / OBJECT_SIZE) ∧
    ((get_random_position 0 15).z = 0 ∧
    (∃ m : Int, (get_random_position 0 15).x = m * OBJECT_SIZE) ∧
    (∃ m : Int, (get_random_position 0 15).y = m * OBJECT_SIZE) ∧
    (-(WINDOW_WIDTH / 2) ≤ (get_random_position 0 15).x ∧
      (get_random_position 0 15).x ≤ WINDOW_WIDTH / 2 - OBJECT_SIZE) ∧
    (-(WINDOW_HEIGHT / 2) ≤ (get_random_position 0 15).y ∧
      (get_random_position 0 15).y ≤ WINDOW_HEIGHT / 2 - OBJECT_SIZE) ∧
    (get_random_position 0 15).x ≠ WINDOW_WIDTH / 2 ∧
    (get_random_position 0 15).y ≠ WINDOW_HEIGHT / 2) :=
  ⟨⟨by decide, by decide, by decide, by decide⟩,
   C9_orb_position 0 15 (by decide) (by decide) (by decide) (by decide)⟩

theorem getElem?_dropLast_cons (l : List Vec3) (v : Vec3) (k : Nat) (hk : k < l.length) :
    ((v :: l).dropLast)[k]? = (v :: l)[k]? := by
  rw [List.dropLast_eq_take, List.getElem?_take]
  simp
  omega

/-- C3: after one movement tick with body length n ≥ 1, segment 1's new
position equals the head's pre-move position and segment k's new position
(k > 1) equals segment (k-1)'s pre-move position; in particular with body
[(0,-32)], head at (0,0) heading Up, one tick moves the head to (0,32) and
body[0] to (0,0). -/
theorem C3_trailing (w : World) (k : Nat) (hk : k < w.body.length) :
    ((move_snake w).body[k]? =
      if k = 0 then some w.head_translation else w.body[k - 1]?) ∧
    (move_snake (World.mk ⟨0, 0, 0⟩ (SnakeHead.mk Direction.Up) "textures/head.png"
        [⟨0, -32, 0⟩] ⟨64, 64, 0⟩)).head_translation = ⟨0, 32, 0⟩ ∧
    (move_snake (World.mk ⟨0, 0, 0⟩ (SnakeHead.mk Direction.Up) "textures/head.png"
        [⟨0, -32, 0⟩] ⟨64, 64, 0⟩)).body[0]? = some ⟨0, 0, 0⟩ := by
  refine ⟨?_, by decide, by decide⟩
  rw [move_snake_body, getElem?_dropLast_cons w.body w.head_translation k hk]
  cases k with
  | zero => simp
  | succ n => simp

/-- C3 witness: the scenario world itself — body [(0,-32)], head (0,0)
heading Up — instantiates the trailing invariant at segment index 0. -/
theorem C3_trailing_witness :
    (0 < (World.mk ⟨0, 0, 0⟩ (SnakeHead.mk Direction.Up) "textures/head.png"
        [⟨0, -32, 0⟩] ⟨64, 64, 0⟩).body.length) ∧
    (move_snake (World.mk ⟨0, 0, 0⟩ (SnakeHead.mk Direction.Up) "textures/head.png"
        [⟨0, -32, 0⟩] ⟨64, 64, 0⟩)).body[0]? =
      (if 0 = 0 then
        some (World.mk ⟨0, 0, 0⟩ (SnakeHead.mk Direction.Up) "textures/head.png"
          [⟨0, -32, 0⟩] ⟨64, 64, 0⟩).head_translation
       else (World.mk ⟨0, 0, 0⟩ (SnakeHead.mk Direction.Up) "textures/head.png"
          [⟨0, -32, 0⟩] ⟨64, 64, 0⟩).body[0 - 1]?) :=
  ⟨by decide,
   (C3_trailing (World.mk ⟨0, 0, 0⟩ (SnakeHead.mk Direction.Up) "textures/head.png"
      [⟨0, -32, 0⟩] ⟨64, 64, 0⟩) 0 (by decide)).1⟩

/-- C2 counterexample: the grid-aligned head (0, 224, 0) heading Up steps to
y = 256 = extent/2, which is not within the half-open interval
[-extent/2, extent/2): the wrap condition is strict (`>`), so the coordinate
may land exactly on +extent/2. -/
theorem C2_wrap_counterexample :
    (step ⟨0, 224, 0⟩ Direction.Up).y = WINDOW_HEIGHT / 2 ∧
    ¬((step ⟨0, 224, 0⟩ Direction.Up).y < WINDOW_HEIGHT / 2) := by
  decide

/-- C2 (amended): for every head position with coordinates in the closed
interval [-extent/2, extent/2] and every heading, after one move step each
coordinate again lies within the closed interval [-extent/2, extent/2]
(the boundary +extent/2 itself is reachable), and the step equals the
unwrapped one-cell displacement translated by exactly zero or one full axis
extent — no accumulated offset. -/
theorem C2_wrap (p : Vec3) (d : Direction)
    (hx0 : -(WINDOW_WIDTH / 2) ≤ p.x) (hx1 : p.x ≤ WINDOW_WIDTH / 2)
    (hy0 : -(WINDOW_HEIGHT / 2) ≤ p.y) (hy1 : p.y ≤ WINDOW_HEIGHT / 2) :
    (-(WINDOW_WIDTH / 2) ≤ (step p d).x ∧ (step p d).x ≤ WINDOW_WIDTH / 2) ∧
    (-(WINDOW_HEIGHT / 2) ≤ (step p d).y ∧ (step p d).y ≤ WINDOW_HEIGHT / 2) ∧
    (∃ k : Int, (step p d).x = p.x + dx d + k * WINDOW_WIDTH ∧ (k = 0 ∨ k = 1 ∨ k = -1)) ∧
    (∃ k : Int, (step p d).y = p.y + dy d + k * WINDOW_HEIGHT ∧ (k = 0 ∨ k = 1 ∨ k = -1)) ∧
    (step p d).z = p.z := by
  cases d <;>
    simp only [step, dx, dy, WINDOW_WIDTH, WINDOW_HEIGHT, SNAKE_SPEED, OBJECT_SIZE] at * <;>
    split <;>
    refine ⟨⟨by omega, by omega⟩, ⟨by omega, by omega⟩, ?_, ?_, by trivial⟩ <;>
    first
      | exact ⟨0, by omega, by omega⟩
      | exact ⟨1, by omega, by omega⟩
      | exact ⟨-1, by omega, by omega⟩

/-- C2 witness: the wrap invariant instantiated at head (0, 224, 0) heading
Up (the step that lands exactly on the +extent/2 boundary). -/
theorem C2_wrap_witness :
    (-(WINDOW_WIDTH / 2) ≤ (0 : Int) ∧ (0 : Int) ≤ WINDOW_WIDTH / 2 ∧
      -(WINDOW_HEIGHT / 2) ≤ (224 : Int) ∧ (224 : Int) ≤ WINDOW_HEIGHT / 2) ∧
    ((-(WINDOW_WIDTH / 2) ≤ (step ⟨0, 224, 0⟩ Direction.Up).x ∧
        (step ⟨0, 224, 0⟩ Direction.Up).x ≤ WINDOW_WIDTH / 2) ∧
      (-(WINDOW_HEIGHT / 2) ≤ (step ⟨0, 224, 0⟩ Direction.Up).y ∧
        (step ⟨0, 224, 0⟩ Direction.Up).y ≤ WINDOW_HEIGHT / 2) ∧
      (∃ k : Int, (step ⟨0, 224, 0⟩ Direction.Up).x =
          (0 : Int) + dx Direction.Up + k * WINDOW_WIDTH ∧ (k = 0 ∨ k = 1 ∨ k = -1)) ∧
      (∃ k : Int, (step ⟨0, 224, 0⟩ Direction.Up).y =
          (224 : Int) + dy Direction.Up + k * WINDOW_HEIGHT ∧ (k = 0 ∨ k = 1 ∨ k = -1)) ∧
      (step ⟨0, 224, 0⟩ Direction.Up).z = (0 : Int)) :=
  ⟨⟨by decide, by decide, by decide, by decide⟩,
   C2_wrap ⟨0, 224, 0⟩ Direction.Up (by decide) (by decide) (by decide) (by decide)⟩

theorem handle_input_append (pressed more : List KeyCode) (h : SnakeHead) :
    handle_input (pressed ++ more) h = handle_input more (handle_input pressed h) := by
  simp [handle_input, List.foldl_append]

theorem handle_input_single (g : SnakeHead) (key : KeyCode) (d : Direction)
    (hmap : Direction.try_from key = some d)
    (hacc : g.direction.is_opposite d = false) :
    handle_input [key] g = SnakeHead.mk d := by
  simp [handle_input, hmap, SnakeHead.turn, SnakeHead.turn_unchecked, hacc]

/-- C6 counterexample: heading Up with the single pressed key S (mapped to
Down) — the pass's last requested direction is Down, but the request is the
opposite of the heading and is rejected, so the final heading stays Up. -/
theorem C6_last_write_counterexample :
    Direction.try_from KeyCode.KeyS = some Direction.Down ∧
    handle_input [KeyCode.KeyS] (SnakeHead.mk Direction.Up) = SnakeHead.mk Direction.Up ∧
    Direction.Up ≠ Direction.Down := by
  decide

/-- C6 (amended): within one input-processing pass the mapped requests are
applied in iteration order by folding the turn rule, with no queueing or
buffering across ticks (an empty pass changes nothing); each request opposite
to the heading in effect when it is processed is discarded and every other
request overwrites the heading, so when the pass's last mapped request is
non-opposite to the heading current at that point, the final heading equals
it — "last write wins" among accepted requests. -/
theorem C6_last_write (pressed : List KeyCode) (h : SnakeHead) (key : KeyCode) (d : Direction)
    (hmap : Direction.try_from key = some d)
    (hacc : (handle_input pressed h).direction.is_opposite d = false) :
    handle_input [] h = h ∧
    (handle_input (pressed ++ [key]) h).direction = d := by
  refine ⟨rfl, ?_⟩
  rw [handle_input_append, handle_input_single (handle_input pressed h) key d hmap hacc]

/-- C6 witness: pass [D, ArrowUp] from heading Up — D turns the heading
Right, then ArrowUp (not opposite of Right) wins, leaving heading Up. -/
theorem C6_last_write_witness :
    (Direction.try_from KeyCode.ArrowUp = some Direction.Up ∧
      (handle_input [KeyCode.KeyD] (SnakeHead.mk Direction.Up)).direction.is_opposite
        Direction.Up = false) ∧
    (handle_input [] (SnakeHead.mk Direction.Up) = SnakeHead.mk Direction.Up ∧
      (handle_input ([KeyCode.KeyD] ++ [KeyCode.ArrowUp])
        (SnakeHead.mk Direction.Up)).direction = Direction.Up) :=
  ⟨⟨by decide, by decide⟩,
   C6_last_write [KeyCode.KeyD] (SnakeHead.mk Direction.Up) KeyCode.ArrowUp Direction.Up
     (by decide) (by decide)⟩

/-- C8: on a tick where the head's post-move position equals neither the orb
nor any body segment, the collision resolver is the identity on the world:
orb, body, head position, heading and head sprite are all unchanged. -/
theorem C8_no_collision (s : World) (orb_position : Vec3)
    (ho : s.orb_translation ≠ s.head_translation)
    (hb : s.head_translation ∉ s.body) :
    check_collisions orb_position s = s := by
  simp [check_collisions, hb, ho]

/-- C8 witness: a concrete non-colliding tick state is left untouched. -/
theorem C8_no_collision_witness :
    ((World.mk ⟨0, 32, 0⟩ (SnakeHead.mk Direction.Up) "textures/head.png"
        [⟨0, 0, 0⟩] ⟨64, 64, 0⟩).orb_translation ≠
      (World.mk ⟨0, 32, 0⟩ (SnakeHead.mk Direction.Up) "textures/head.png"
        [⟨0, 0, 0⟩] ⟨64, 64, 0⟩).head_translation) ∧
    check_collisions ⟨96, 96, 0⟩
        (World.mk ⟨0, 32, 0⟩ (SnakeHead.mk Direction.Up) "textures/head.png"
          [⟨0, 0, 0⟩] ⟨64, 64, 0⟩) =
      World.mk ⟨0, 32, 0⟩ (SnakeHead.mk Direction.Up) "textures/head.png"
        [⟨0, 0, 0⟩] ⟨64, 64, 0⟩ :=
  ⟨by decide,
   C8_no_collision
     (World.mk ⟨0, 32, 0⟩ (SnakeHead.mk Direction.Up) "textures/head.png"
       [⟨0, 0, 0⟩] ⟨64, 64, 0⟩) ⟨96, 96, 0⟩ (by decide) (by decide)⟩

/-- C7: the self-collision check resolves before the orb-consumption check:
when the head's post-move position equals both a body segment and the orb,
the same tick despawns every pre-existing segment, then still appends the one
new segment (so the body ends as exactly the new segment — had the append
preceded the destroy, the body would end empty), relocates the orb, and marks
the head crashed, leaving head position and heading untouched. -/
theorem C7_crash_then_grow (s : World) (orb_position : Vec3)
    (hc : s.head_translation ∈ s.body)
    (ho : s.orb_translation = s.head_translation) :
    (check_collisions orb_position s).body = [s.head_translation] ∧
    (check_collisions orb_position s).orb_translation = orb_position ∧
    (check_collisions orb_position s).head_image = "textures/head_2.png" ∧
    (check_collisions orb_position s).head_translation = s.head_translation ∧
    (check_collisions orb_position s).head = s.head := by
  simp [check_collisions, hc, ho]

/-- C7 witness: head on both a body segment and the orb — the tick ends with
exactly the one fresh segment, a relocated orb and a crashed sprite. -/
theorem C7_crash_then_grow_witness :
    ((World.mk ⟨0, 32, 0⟩ (SnakeHead.mk Direction.Up) "textures/head.png"
        [⟨0, 32, 0⟩] ⟨0, 32, 0⟩).head_translation ∈
      (World.mk ⟨0, 32, 0⟩ (SnakeHead.mk Direction.Up) "textures/head.png"
        [⟨0, 32, 0⟩] ⟨0, 32, 0⟩).body) ∧
    (check_collisions ⟨64, 64, 0⟩
        (World.mk ⟨0, 32, 0⟩ (SnakeHead.mk Direction.Up) "textures/head.png"
          [⟨0, 32, 0⟩] ⟨0, 32, 0⟩)).body = [⟨0, 32, 0⟩] ∧
    (check_collisions ⟨64, 64, 0⟩
        (World.mk ⟨0, 32, 0⟩ (SnakeHead.mk Direction.Up) "textures/head.png"
          [⟨0, 32, 0⟩] ⟨0, 32, 0⟩)).orb_translation = ⟨64, 64, 0⟩ :=
  ⟨by decide,
   (C7_crash_then_grow
      (World.mk ⟨0, 32, 0⟩ (SnakeHead.mk Direction.Up) "textures/head.png"
        [⟨0, 32, 0⟩] ⟨0, 32, 0⟩) ⟨64, 64, 0⟩ (by decide) (by decide)).1,
   (C7_crash_then_grow
      (World.mk ⟨0, 32, 0⟩ (SnakeHead.mk Direction.Up) "textures/head.png"
        [⟨0, 32, 0⟩] ⟨0, 32, 0⟩) ⟨64, 64, 0⟩ (by decide) (by decide)).2.1⟩

/-- C4 counterexample: if the orb happens to lie on the collision cell
(orb relocation never checks overlap, so such states arise), the crash tick
also consumes the orb and spawns one segment: with head (0,0) heading Up,
body [(0,32), (0,64)] and orb (0,32), the post-move head (0,32) hits body
segment (0,32), yet the tick ends with body length 1, not 0. -/
theorem C4_crash_counterexample :
    ((move_snake (World.mk ⟨0, 0, 0⟩ (SnakeHead.mk Direction.Up) "textures/head.png"
        [⟨0, 32, 0⟩, ⟨0, 64, 0⟩] ⟨0, 32, 0⟩)).head_translation ∈
      (move_snake (World.mk ⟨0, 0, 0⟩ (SnakeHead.mk Direction.Up) "textures/head.png"
        [⟨0, 32, 0⟩, ⟨0, 64, 0⟩] ⟨0, 32, 0⟩)).body) ∧
    (check_collisions ⟨64, 64, 0⟩
        (move_snake (World.mk ⟨0, 0, 0⟩ (SnakeHead.mk Direction.Up) "textures/head.png"
          [⟨0, 32, 0⟩, ⟨0, 64, 0⟩] ⟨0, 32, 0⟩))).body.length ≠ 0 := by
  decide

/-- C4 (amended): whenever the head's post-move position equals some body
segment's position, every pre-existing body segment is destroyed on that tick
and the head's sprite becomes the crashed image, while crash resolution
leaves the head's position and heading unchanged; the body count returns to
zero unless the orb is consumed on the same tick, in which case exactly the
one newly spawned segment remains. -/
theorem C4_crash (s : World) (orb_position : Vec3)
    (hc : s.head_translation ∈ s.body) :
    (check_collisions orb_position s).body =
      (if s.orb_translation = s.head_translation then [s.head_translation] else []) ∧
    (check_collisions orb_position s).head_image = "textures/head_2.png" ∧
    (check_collisions orb_position s).head_translation = s.head_translation ∧
    (check_collisions orb_position s).head = s.head := by
  simp only [check_collisions, if_pos hc]
  by_cases ho : s.orb_translation = s.head_translation <;> simp [ho]

/-- C4 witness: head on a body segment with the orb elsewhere — the tick
ends with an empty body, a crashed sprite and an untouched head. -/
theorem C4_crash_witness :
    ((World.mk ⟨0, 32, 0⟩ (SnakeHead.mk Direction.Up) "textures/head.png"
        [⟨0, 32, 0⟩] ⟨96, 96, 0⟩).head_translation ∈
      (World.mk ⟨0, 32, 0⟩ (SnakeHead.mk Direction.Up) "textures/head.png"
        [⟨0, 32, 0⟩] ⟨96, 96, 0⟩).body) ∧
    (check_collisions ⟨64, 64, 0⟩
        (World.mk ⟨0, 32, 0⟩ (SnakeHead.mk Direction.Up) "textures/head.png"
          [⟨0, 32, 0⟩] ⟨96, 96, 0⟩)).body =
      (if (⟨96, 96, 0⟩ : Vec3) = ⟨0, 32, 0⟩ then [(⟨0, 32, 0⟩ : Vec3)] else []) ∧
    (check_collisions ⟨64, 64, 0⟩
        (World.mk ⟨0, 32, 0⟩ (SnakeHead.mk Direction.Up) "textures/head.png"
          [⟨0, 32, 0⟩] ⟨96, 96, 0⟩)).head_image = "textures/head_2.png" :=
  ⟨by decide,
   (C4_crash (World.mk ⟨0, 32, 0⟩ (SnakeHead.mk Direction.Up) "textures/head.png"
      [⟨0, 32, 0⟩] ⟨96, 96, 0⟩) ⟨64, 64, 0⟩ (by decide)).1,
   (C4_crash (World.mk ⟨0, 32, 0⟩ (SnakeHead.mk Direction.Up) "textures/head.png"
      [⟨0, 32, 0⟩] ⟨96, 96, 0⟩) ⟨64, 64, 0⟩ (by decide)).2.1⟩

/-- C1 counterexample: head (0,0) heading Up, body [(0,-32)], orb (0,32).
The tick moves the head onto the orb; the propagation pass's final
`last_translation` (the tail's pre-move position) is (0,-32), but the newly
spawned segment sits at (0,32) — `check_collisions` spawns at the head's
post-move translation, and the trail value is a local of `move_snake` that
never reaches it. -/
theorem C1_growth_counterexample :
    ((move_snake (World.mk ⟨0, 0, 0⟩ (SnakeHead.mk Direction.Up) "textures/head.png"
        [⟨0, -32, 0⟩] ⟨0, 32, 0⟩)).orb_translation =
      (move_snake (World.mk ⟨0, 0, 0⟩ (SnakeHead.mk Direction.Up) "textures/head.png"
        [⟨0, -32, 0⟩] ⟨0, 32, 0⟩)).head_translation) ∧
    (check_collisions ⟨64, 64, 0⟩
        (move_snake (World.mk ⟨0, 0, 0⟩ (SnakeHead.mk Direction.Up) "textures/head.png"
          [⟨0, -32, 0⟩] ⟨0, 32, 0⟩))).body = [⟨0, 0, 0⟩, ⟨0, 32, 0⟩] ∧
    move_snake_trail (World.mk ⟨0, 0, 0⟩ (SnakeHead.mk Direction.Up) "textures/head.png"
        [⟨0, -32, 0⟩] ⟨0, 32, 0⟩) = ⟨0, -32, 0⟩ ∧
    (⟨0, 32, 0⟩ : Vec3) ≠ ⟨0, -32, 0⟩ := by
  decide

/-- C1 (amended): when the head's post-move position equals the orb's
position on a tick with no self-collision, exactly one new body segment is
created — the body becomes the old body with one segment appended — and the
new segment's position equals the head's post-move position (not the tail's
pre-move trail position). -/
theorem C1_growth (w : World) (orb_position : Vec3)
    (ho : (move_snake w).orb_translation = (move_snake w).head_translation)
    (hnc : (move_snake w).head_translation ∉ (move_snake w).body) :
    (check_collisions orb_position (move_snake w)).body =
      (move_snake w).body ++ [(move_snake w).head_translation] ∧
    (check_collisions orb_position (move_snake w)).body.length =
      (move_snake w).body.length + 1 := by
  refine ⟨?_, ?_⟩ <;> simp [check_collisions, hnc, ho]

/-- C1 witness: the counterexample scenario instantiates the amended growth
law — head (0,0) heading Up with body [(0,-32)] and orb (0,32) grows by the
one segment (0,32). -/
theorem C1_growth_witness :
    ((move_snake (World.mk ⟨0, 0, 0⟩ (SnakeHead.mk Direction.Up) "textures/head.png"
        [⟨0, -32, 0⟩] ⟨0, 32, 0⟩)).orb_translation =
      (move_snake (World.mk ⟨0, 0, 0⟩ (SnakeHead.mk Direction.Up) "textures/head.png"
        [⟨0, -32, 0⟩] ⟨0, 32, 0⟩)).head_translation) ∧
    ((move_snake (World.mk ⟨0, 0, 0⟩ (SnakeHead.mk Direction.Up) "textures/head.png"
        [⟨0, -32, 0⟩] ⟨0, 32, 0⟩)).head_translation ∉
      (move_snake (World.mk ⟨0, 0, 0⟩ (SnakeHead.mk Direction.Up) "textures/head.png"
        [⟨0, -32, 0⟩] ⟨0, 32, 0⟩)).body) ∧
    (check_collisions ⟨64, 64, 0⟩
        (move_snake (World.mk ⟨0, 0, 0⟩ (SnakeHead.mk Direction.Up) "textures/head.png"
          [⟨0, -32, 0⟩] ⟨0, 32, 0⟩))).body =
      (move_snake (World.mk ⟨0, 0, 0⟩ (SnakeHead.mk Direction.Up) "textures/head.png"
        [⟨0, -32, 0⟩] ⟨0, 32, 0⟩)).body ++
        [(move_snake (World.mk ⟨0, 0, 0⟩ (SnakeHead.mk Direction.Up) "textures/head.png"
          [⟨0, -32, 0⟩] ⟨0, 32, 0⟩)).head_translation] :=
  ⟨by decide, by decide,
   (C1_growth (World.mk ⟨0, 0, 0⟩ (SnakeHead.mk Direction.Up) "textures/head.png"
      [⟨0, -32, 0⟩] ⟨0, 32, 0⟩) ⟨64, 64, 0⟩ (by decide) (by decide)).1⟩

end Snake
